import Mathlib

/-!
Verification development for the X25519 / X448 Montgomery-ladder core of
mima-kit (`src/core/x25519_448` module).  The ladder, conditional swap,
clamping and the two curve instantiations are shallowly embedded from the
source; the external collaborators (field arithmetic, byte codecs, domain
parameters, bit-length utility) are modelled from the specification, which
describes them at their interface boundary.
-/

set_option maxRecDepth 20000

namespace MimaKit

/-- Modelled from the spec: field-arithmetic collaborator, modular addition
over the prime field (`plus` of `Fp(p)`). -/
def fpAdd (p a b : Nat) : Nat := (a + b) % p

/-- Modelled from the spec: field-arithmetic collaborator, modular
subtraction over the prime field (`subtract` of `Fp(p)`); the result is the
canonical non-negative representative. -/
def fpSub (p a b : Nat) : Nat := (a + (p - b % p)) % p

/-- Modelled from the spec: field-arithmetic collaborator, modular
multiplication over the prime field (`multiply` of `Fp(p)`). -/
def fpMul (p a b : Nat) : Nat := a * b % p

/-- Modelled from the spec: fuel-driven square-and-multiply auxiliary for
modular exponentiation; the fuel dominates the number of binary digits of
the exponent. -/
def powModAux (p : Nat) : Nat → Nat → Nat → Nat
  | 0, _, _ => 1 % p
  | fuel+1, b, e =>
    if e = 0 then 1 % p
    else
      let r := powModAux p fuel (b * b % p) (e / 2)
      if e % 2 = 1 then b * r % p else r

/-- Modelled from the spec: field-arithmetic collaborator, modular
exponentiation over the prime field (`pow` of `Fp(p)`). -/
def fpPow (p b e : Nat) : Nat := powModAux p e b e

/-- Modelled from the spec: byte-to-integer codec (little-endian), the
`U8.toBI` collaborator applied to a byte string. -/
def toBI (bs : List Nat) : Nat := bs.foldr (fun b acc => b + 256 * acc) 0

/-- Modelled from the spec: fuel-driven auxiliary for the integer-to-byte
codec; the fuel dominates the number of base-256 digits. -/
def fromBIAux : Nat → Nat → List Nat
  | 0, _ => []
  | fuel+1, x => if x = 0 then [] else x % 256 :: fromBIAux fuel (x / 256)

/-- Modelled from the spec: integer-to-byte codec (little-endian), the
`U8.fromBI` collaborator; it produces the minimal little-endian digit
string of the value (the curve wrappers pad it to fixed width where the
source copies it into a zero-filled fixed-width buffer). -/
def fromBI (x : Nat) : List Nat := fromBIAux x x

/-- Modelled from the spec: a zero-filled byte buffer of width `n` with
`bs` copied in at offset `0` (the `new U8(n)` + `set` idiom of the
source); for `bs` no longer than `n` this is `bs` padded with high zero
bytes to exactly `n` bytes. -/
def u8Set (n : Nat) (bs : List Nat) : List Nat :=
  bs ++ List.replicate (n - bs.length) 0

/-- Modelled from the spec: fuel-driven auxiliary for the bit-length
collaborator. -/
def bitsAux : Nat → Nat → Nat
  | 0, _ => 0
  | fuel+1, x => if x = 0 then 0 else bitsAux fuel (x / 2) + 1

/-- Modelled from the spec: the `getBIBits` collaborator, the bit length of
an arbitrary-precision non-negative integer. -/
def getBIBits (x : Nat) : Nat := bitsAux x x

/-- Modelled from the spec: prime modulus of Curve A (curve25519 domain
parameters, RFC 7748). -/
def p25519 : Nat := 2^255 - 19

/-- Modelled from the spec: generator u-coordinate of Curve A (curve25519
domain parameters, RFC 7748). -/
def gx25519 : Nat := 9

/-- Modelled from the spec: prime modulus of Curve B (curve448 domain
parameters, RFC 7748). -/
def p448 : Nat := 2^448 - 2^224 - 1

/-- Modelled from the spec: generator u-coordinate of Curve B (curve448
domain parameters, RFC 7748). -/
def gx448 : Nat := 5

/-- Modelled from the spec: group order of Curve B (curve448 domain
parameters, RFC 7748); only its bit length (446) is consumed, to derive the
56-byte encoded width. -/
def n448 : Nat := 2^446 - 13818066809895115352007386748515426880336692474882178609894547503885

/-- Embedded from the source: branch-free conditional swap `cSwap`.  The
selector-derived mask is `-swap` on JavaScript big integers, whose bitwise
operations on negative values follow the mathematical two's-complement
semantics of `Int.land` / `Int.xor`; the two field elements are the
canonical non-negative representatives. -/
def cSwap (swap x_2 x_3 : Nat) : Nat × Nat :=
  let mask : Int := -(Int.ofNat swap)
  let dummy : Int := Int.land mask (Int.xor (Int.ofNat x_2) (Int.ofNat x_3))
  ((Int.xor (Int.ofNat x_2) dummy).toNat, (Int.xor (Int.ofNat x_3) dummy).toNat)

/-- State of the Montgomery ladder loop: the two projective coordinate
pairs and the pending swap bit. -/
structure LState where
  x2 : Nat
  z2 : Nat
  x3 : Nat
  z3 : Nat
  swap : Nat
deriving DecidableEq

/-- Embedded from the source: one iteration of the ladder loop at bit
index `i`, using the branch-free `cSwap`. -/
def ladderStep (k u p a24 i : Nat) (s : LState) : LState :=
  let k_t := (k >>> i) &&& 1
  let sw := s.swap ^^^ k_t
  let xp := cSwap sw s.x2 s.x3
  let zp := cSwap sw s.z2 s.z3
  let A := fpAdd p xp.1 zp.1
  let AA := fpPow p A 2
  let B := fpSub p xp.1 zp.1
  let BB := fpPow p B 2
  let E := fpSub p AA BB
  let C := fpAdd p xp.2 zp.2
  let D := fpSub p xp.2 zp.2
  let DA := fpMul p D A
  let CB := fpMul p C B
  ⟨fpMul p AA BB,
   fpMul p E (fpAdd p AA (fpMul p E a24)),
   fpPow p (fpAdd p DA CB) 2,
   fpMul p u (fpPow p (fpSub p DA CB) 2),
   k_t⟩

/-- Embedded from the source: the ladder loop, iterating bit indices from
`fuel - 1` down to `0`. -/
def ladderLoop (k u p a24 : Nat) : Nat → LState → LState
  | 0, s => s
  | i+1, s => ladderLoop k u p a24 i (ladderStep k u p a24 i s)

/-- Embedded from the source: the Montgomery ladder `ladder(k, u, p, a24,
bit)`, including the final conditional swap and the Fermat inversion of
`z_2`. -/
def ladder (k u p a24 bit : Nat) : Nat :=
  let s := ladderLoop k u p a24 bit ⟨1, 0, u, 1, 0⟩
  let xp := cSwap s.swap s.x2 s.x3
  let zp := cSwap s.swap s.z2 s.z3
  fpMul p xp.1 (fpPow p zp.1 (p - 2))

/-- Stated from the spec (for the refinement comparison of claim C1): one
iteration of the ladder loop as written in §4.2 of the spec, with the
conditional swap expressed directly as a selector test. -/
def ladderStepSpec (k u p a24 i : Nat) (s : LState) : LState :=
  let k_t := (k >>> i) &&& 1
  let sw := s.swap ^^^ k_t
  let x_2 := if sw = 1 then s.x3 else s.x2
  let x_3 := if sw = 1 then s.x2 else s.x3
  let z_2 := if sw = 1 then s.z3 else s.z2
  let z_3 := if sw = 1 then s.z2 else s.z3
  let A := fpAdd p x_2 z_2
  let AA := fpPow p A 2
  let B := fpSub p x_2 z_2
  let BB := fpPow p B 2
  let E := fpSub p AA BB
  let C := fpAdd p x_3 z_3
  let D := fpSub p x_3 z_3
  let DA := fpMul p D A
  let CB := fpMul p C B
  ⟨fpMul p AA BB,
   fpMul p E (fpAdd p AA (fpMul p E a24)),
   fpPow p (fpAdd p DA CB) 2,
   fpMul p u (fpPow p (fpSub p DA CB) 2),
   k_t⟩

/-- Stated from the spec (for the refinement comparison of claim C1): the
ladder loop of §4.2. -/
def ladderLoopSpec (k u p a24 : Nat) : Nat → LState → LState
  | 0, s => s
  | i+1, s => ladderLoopSpec k u p a24 i (ladderStepSpec k u p a24 i s)

/-- Stated from the spec (for the refinement comparison of claim C1): the
full ladder algorithm of §4.2, steps 1–5. -/
def ladderSpec (k u p a24 bit : Nat) : Nat :=
  let s := ladderLoopSpec k u p a24 bit ⟨1, 0, u, 1, 0⟩
  let x_2 := if s.swap = 1 then s.x3 else s.x2
  let z_2 := if s.swap = 1 then s.z3 else s.z2
  fpMul p x_2 (fpPow p z_2 (p - 2))

/-- Embedded from the source: the domain-specific error raised on a zero
private scalar (`KitError('Invalid private key')`). -/
inductive KitError where
  | invalidPrivateKey
deriving DecidableEq

/-- Embedded from the source: the x25519 `clamp`, with the exact hexadecimal
masks of the source. -/
def x25519_clamp (d : Nat) : Nat :=
  (d &&& 0x7FFFFFFFFFFFFFFFFFFFFFFFFFFFFFFFFFFFFFFFFFFFFFFFFFFFFFFFFFFFFFF8) |||
  0x4000000000000000000000000000000000000000000000000000000000000000

/-- Embedded from the source: the x25519 curve constant `a24`. -/
def x25519_a24 : Nat := 121665

/-- Embedded from the source: the x25519 encoded byte width `p_byte`,
derived from the bit length of the prime. -/
def x25519_pByte : Nat := (getBIBits p25519 + 7) >>> 3

/-- Embedded from the source: the `key_pair` branch of `x25519.gen`.  The
external uniform-random byte generator is out of scope of the core; its
output (the raw private-key byte string `rand`) is passed as an argument.
Returns the pair `(d, Q)` of private-key bytes and public-key bytes. -/
def x25519_genKeyPair (rand : List Nat) : List Nat × List Nat :=
  let d := toBI rand
  let x := ladder (x25519_clamp d) gx25519 p25519 x25519_a24 255
  (rand, u8Set x25519_pByte (fromBI x))

/-- Embedded from the source: the `private_key` branch of `x25519.gen`,
which returns the externally generated random byte string unchanged. -/
def x25519_genPrivateKey (rand : List Nat) : List Nat := rand

/-- Embedded from the source: the `public_key` branch of `x25519.gen`
(derive a public key from caller-supplied private-key bytes); raises
`KitError` exactly when the decoded scalar is zero. -/
def x25519_genPublicKey (skey : List Nat) : Except KitError (List Nat × List Nat) :=
  let d := toBI skey
  if d = 0 then .error .invalidPrivateKey
  else
    let x := ladder (x25519_clamp d) gx25519 p25519 x25519_a24 255
    .ok (skey, u8Set x25519_pByte (fromBI x))

/-- Embedded from the source: `x25519.ecdh`; note that the result is
returned as the minimal-length encoding `U8.fromBI(x)` without the
fixed-width padding used by the key-generation branches. -/
def x25519_ecdh (skey pkey : List Nat) : List Nat :=
  let u := toBI pkey
  let k := toBI skey
  let x := ladder (x25519_clamp k) u p25519 x25519_a24 255
  fromBI x

/-- Embedded from the source: the x448 `clamp`, with the exact hexadecimal
masks of the source. -/
def x448_clamp (d : Nat) : Nat :=
  (d &&& 0xFFFFFFFFFFFFFFFFFFFFFFFFFFFFFFFFFFFFFFFFFFFFFFFFFFFFFFFFFFFFFFFFFFFFFFFFFFFFFFFFFFFFFFFFFFFFFFFFFFFFFFFFFFFFFFFC) |||
  0x8000000000000000000000000000000000000000000000000000000000000000000000000000000000000000000000000000000000000000

/-- Embedded from the source: the x448 curve constant `a24`. -/
def x448_a24 : Nat := 39081

/-- Embedded from the source: the x448 encoded byte width `n_byte`,
derived from the bit length of the group order. -/
def x448_nByte : Nat := (getBIBits n448 + 7) >>> 3

/-- Embedded from the source: the `key_pair` branch of `x448.gen`, with the
external random byte string passed as an argument. -/
def x448_genKeyPair (rand : List Nat) : List Nat × List Nat :=
  let d := toBI rand
  let x := ladder (x448_clamp d) gx448 p448 x448_a24 448
  (rand, u8Set x448_nByte (fromBI x))

/-- Embedded from the source: the `private_key` branch of `x448.gen`. -/
def x448_genPrivateKey (rand : List Nat) : List Nat := rand

/-- Embedded from the source: the `public_key` branch of `x448.gen`; raises
`KitError` exactly when the decoded scalar is zero. -/
def x448_genPublicKey (skey : List Nat) : Except KitError (List Nat × List Nat) :=
  let d := toBI skey
  if d = 0 then .error .invalidPrivateKey
  else
    let x := ladder (x448_clamp d) gx448 p448 x448_a24 448
    .ok (skey, u8Set x448_nByte (fromBI x))

/-- Embedded from the source: `x448.ecdh`; as for x25519 the result is the
minimal-length encoding without fixed-width padding. -/
def x448_ecdh (skey pkey : List Nat) : List Nat :=
  let u := toBI pkey
  let k := toBI skey
  let x := ladder (x448_clamp k) u p448 x448_a24 448
  fromBI x

/-! Helper lemmas: the branch-free conditional swap agrees with the
selector-test conditional swap on single-bit selectors. -/

lemma ldiff_zero (z : Nat) : Nat.ldiff z 0 = z := by
  refine Nat.eq_of_testBit_eq fun i => ?_
  simp [Nat.testBit_ldiff]

lemma cSwap_zero (a b : Nat) : cSwap 0 a b = (a, b) := by
  show ((Int.xor (Int.ofNat a) (Int.land (-(Int.ofNat 0)) (Int.xor (Int.ofNat a) (Int.ofNat b)))).toNat,
        (Int.xor (Int.ofNat b) (Int.land (-(Int.ofNat 0)) (Int.xor (Int.ofNat a) (Int.ofNat b)))).toNat) = (a, b)
  have h1 : Int.land (-(Int.ofNat 0)) (Int.xor (Int.ofNat a) (Int.ofNat b)) = Int.ofNat 0 := by
    show Int.ofNat (0 &&& (a ^^^ b)) = Int.ofNat 0
    rw [Nat.zero_and]
  rw [h1]
  show (Int.ofNat (a ^^^ 0) |>.toNat, Int.ofNat (b ^^^ 0) |>.toNat) = (a, b)
  rw [Nat.xor_zero, Nat.xor_zero]
  rfl

lemma cSwap_one (a b : Nat) : cSwap 1 a b = (b, a) := by
  show ((Int.xor (Int.ofNat a) (Int.land (-(Int.ofNat 1)) (Int.xor (Int.ofNat a) (Int.ofNat b)))).toNat,
        (Int.xor (Int.ofNat b) (Int.land (-(Int.ofNat 1)) (Int.xor (Int.ofNat a) (Int.ofNat b)))).toNat) = (b, a)
  have h1 : Int.land (-(Int.ofNat 1)) (Int.xor (Int.ofNat a) (Int.ofNat b)) = Int.ofNat (a ^^^ b) := by
    show Int.ofNat (Nat.ldiff (a ^^^ b) 0) = Int.ofNat (a ^^^ b)
    rw [ldiff_zero]
  rw [h1]
  show (Int.ofNat (a ^^^ (a ^^^ b)) |>.toNat, Int.ofNat (b ^^^ (a ^^^ b)) |>.toNat) = (b, a)
  have h2 : a ^^^ (a ^^^ b) = b := by
    rw [← Nat.xor_assoc, Nat.xor_self, Nat.zero_xor]
  have h3 : b ^^^ (a ^^^ b) = a := by
    rw [Nat.xor_comm a b, ← Nat.xor_assoc, Nat.xor_self, Nat.zero_xor]
  rw [h2, h3]
  rfl

lemma bit_and_one (k i : Nat) : (k >>> i) &&& 1 = 0 ∨ (k >>> i) &&& 1 = 1 := by
  rw [Nat.and_one_is_mod]
  exact Nat.mod_two_eq_zero_or_one _

lemma xor_bit_cases {a b : Nat} (ha : a = 0 ∨ a = 1) (hb : b = 0 ∨ b = 1) :
    a ^^^ b = 0 ∨ a ^^^ b = 1 := by
  rcases ha with h | h <;> rcases hb with h2 | h2 <;> subst h <;> subst h2 <;> simp

/-! Helper lemmas: the source ladder coincides with the spec ladder. -/

lemma ladderStep_eq (k u p a24 i : Nat) (s : LState) (h : s.swap = 0 ∨ s.swap = 1) :
    ladderStep k u p a24 i s = ladderStepSpec k u p a24 i s := by
  unfold ladderStep ladderStepSpec
  dsimp only
  have hsw := xor_bit_cases h (bit_and_one k i)
  rcases hsw with h0 | h1
  · rw [h0, cSwap_zero, cSwap_zero]
    simp
  · rw [h1, cSwap_one, cSwap_one]
    simp

lemma ladderStep_swap (k u p a24 i : Nat) (s : LState) :
    (ladderStep k u p a24 i s).swap = 0 ∨ (ladderStep k u p a24 i s).swap = 1 := by
  unfold ladderStep
  exact bit_and_one k i

lemma ladderLoop_eq (k u p a24 : Nat) :
    ∀ (n : Nat) (s : LState), s.swap = 0 ∨ s.swap = 1 →
      ladderLoop k u p a24 n s = ladderLoopSpec k u p a24 n s
  | 0, _, _ => rfl
  | n+1, s, h => by
    show ladderLoop k u p a24 n (ladderStep k u p a24 n s) =
         ladderLoopSpec k u p a24 n (ladderStepSpec k u p a24 n s)
    rw [← ladderStep_eq k u p a24 n s h]
    exact ladderLoop_eq k u p a24 n _ (ladderStep_swap k u p a24 n s)

lemma ladderLoop_swap (k u p a24 : Nat) :
    ∀ (n : Nat) (s : LState), s.swap = 0 ∨ s.swap = 1 →
      ((ladderLoop k u p a24 n s).swap = 0 ∨ (ladderLoop k u p a24 n s).swap = 1)
  | 0, _, h => h
  | n+1, s, _ => by
    show (ladderLoop k u p a24 n (ladderStep k u p a24 n s)).swap = 0 ∨
         (ladderLoop k u p a24 n (ladderStep k u p a24 n s)).swap = 1
    exact ladderLoop_swap k u p a24 n _ (ladderStep_swap k u p a24 n s)

lemma ladder_eq_ladderSpec (k u p a24 bit : Nat) :
    ladder k u p a24 bit = ladderSpec k u p a24 bit := by
  unfold ladder ladderSpec
  dsimp only
  rw [← ladderLoop_eq k u p a24 bit ⟨1, 0, u, 1, 0⟩ (Or.inl rfl)]
  have hsw := ladderLoop_swap k u p a24 bit ⟨1, 0, u, 1, 0⟩ (Or.inl rfl)
  rcases hsw with h0 | h1
  · rw [h0, cSwap_zero, cSwap_zero]
    simp
  · rw [h1, cSwap_one, cSwap_one]
    simp

/-! Helper lemmas: splitting the spec ladder loop into chunks, used to
evaluate concrete 255-iteration runs inside the kernel. -/

lemma ladderStepSpec_shift (k u p a24 m n : Nat) (s : LState) :
    ladderStepSpec k u p a24 (m + n) s = ladderStepSpec (k >>> m) u p a24 n s := by
  unfold ladderStepSpec
  dsimp only
  rw [Nat.shiftRight_add]

lemma ladderLoopSpec_add (k u p a24 m n : Nat) (s : LState) :
    ladderLoopSpec k u p a24 (m + n) s =
      ladderLoopSpec k u p a24 m (ladderLoopSpec (k >>> m) u p a24 n s) := by
  induction n generalizing s with
  | zero => rfl
  | succ n ih =>
    calc ladderLoopSpec k u p a24 (m + (n + 1)) s
        = ladderLoopSpec k u p a24 (m + n) (ladderStepSpec k u p a24 (m + n) s) := rfl
      _ = ladderLoopSpec k u p a24 m
            (ladderLoopSpec (k >>> m) u p a24 n (ladderStepSpec k u p a24 (m + n) s)) := ih _
      _ = ladderLoopSpec k u p a24 m
            (ladderLoopSpec (k >>> m) u p a24 n (ladderStepSpec (k >>> m) u p a24 n s)) := by
          rw [ladderStepSpec_shift]

lemma ladderSpec_of_loop (k u p a24 bit : Nat) (s : LState)
    (h : ladderLoopSpec k u p a24 bit ⟨1, 0, u, 1, 0⟩ = s) :
    ladderSpec k u p a24 bit =
      fpMul p (if s.swap = 1 then s.x3 else s.x2)
        (fpPow p (if s.swap = 1 then s.z3 else s.z2) (p - 2)) := by
  unfold ladderSpec
  dsimp only
  rw [h]

lemma x25519_ecdh_eq (skey pkey : List Nat) :
    x25519_ecdh skey pkey =
      fromBI (ladderSpec (x25519_clamp (toBI skey)) (toBI pkey) p25519 x25519_a24 255) := by
  unfold x25519_ecdh
  dsimp only
  rw [ladder_eq_ladderSpec]

lemma x448_ecdh_eq (skey pkey : List Nat) :
    x448_ecdh skey pkey =
      fromBI (ladderSpec (x448_clamp (toBI skey)) (toBI pkey) p448 x448_a24 448) := by
  unfold x448_ecdh
  dsimp only
  rw [ladder_eq_ladderSpec]

/-! Helper lemmas: output sizes. -/

lemma ladder_lt (k u p a24 bit : Nat) (hp : 0 < p) : ladder k u p a24 bit < p := by
  unfold ladder fpMul
  exact Nat.mod_lt _ hp

lemma fromBIAux_length : ∀ (fuel x n : Nat), x < 256 ^ n → (fromBIAux fuel x).length ≤ n
  | 0, _, _, _ => Nat.zero_le _
  | fuel+1, x, n, h => by
    unfold fromBIAux
    by_cases hx : x = 0
    · simp [hx]
    · rw [if_neg hx]
      have hn : n ≠ 0 := by
        rintro rfl
        simp at h
        omega
      have hdiv : x / 256 < 256 ^ (n - 1) := by
        rw [Nat.div_lt_iff_lt_mul (by norm_num : 0 < 256)]
        calc x < 256 ^ n := h
          _ = 256 ^ (n - 1) * 256 := by
            rw [← Nat.pow_succ]
            congr 1
            omega
      have := fromBIAux_length fuel (x / 256) (n - 1) hdiv
      simp only [List.length_cons]
      omega

lemma fromBI_length (x n : Nat) (h : x < 256 ^ n) : (fromBI x).length ≤ n :=
  fromBIAux_length x x n h

lemma u8Set_length (n : Nat) (bs : List Nat) (h : bs.length ≤ n) :
    (u8Set n bs).length = n := by
  simp [u8Set]
  omega

/-! Helper lemmas: bit-level characterisation of the two clamp functions. -/

lemma x25519_clamp_testBit (d i : Nat) :
    (x25519_clamp d).testBit i =
      ((d.testBit i && decide (3 ≤ i) && decide (i < 255)) || decide (i = 254)) := by
  unfold x25519_clamp
  have hm : (0x7FFFFFFFFFFFFFFFFFFFFFFFFFFFFFFFFFFFFFFFFFFFFFFFFFFFFFFFFFFFFFF8 : Nat) =
      (2 ^ 252 - 1) <<< 3 := by decide
  have hs : (0x4000000000000000000000000000000000000000000000000000000000000000 : Nat) =
      2 ^ 254 := by decide
  rw [hm, hs, Nat.testBit_lor, Nat.testBit_land, Nat.testBit_shiftLeft,
    Nat.testBit_two_pow_sub_one, Nat.testBit_two_pow]
  refine Bool.eq_iff_iff.mpr ?_
  simp only [Bool.or_eq_true, Bool.and_eq_true, decide_eq_true_eq]
  by_cases hP : d.testBit i = true <;> simp [hP] <;> omega

lemma x448_clamp_testBit (d i : Nat) :
    (x448_clamp d).testBit i =
      ((d.testBit i && decide (2 ≤ i) && decide (i < 448)) || decide (i = 447)) := by
  unfold x448_clamp
  have hm : (0xFFFFFFFFFFFFFFFFFFFFFFFFFFFFFFFFFFFFFFFFFFFFFFFFFFFFFFFFFFFFFFFFFFFFFFFFFFFFFFFFFFFFFFFFFFFFFFFFFFFFFFFFFFFFFFFC : Nat) =
      (2 ^ 446 - 1) <<< 2 := by decide
  have hs : (0x8000000000000000000000000000000000000000000000000000000000000000000000000000000000000000000000000000000000000000 : Nat) =
      2 ^ 447 := by decide
  rw [hm, hs, Nat.testBit_lor, Nat.testBit_land, Nat.testBit_shiftLeft,
    Nat.testBit_two_pow_sub_one, Nat.testBit_two_pow]
  refine Bool.eq_iff_iff.mpr ?_
  simp only [Bool.or_eq_true, Bool.and_eq_true, decide_eq_true_eq]
  by_cases hP : d.testBit i = true <;> simp [hP] <;> omega

lemma x25519_clamp_idem (d : Nat) : x25519_clamp (x25519_clamp d) = x25519_clamp d := by
  refine Nat.eq_of_testBit_eq fun i => ?_
  rw [x25519_clamp_testBit, x25519_clamp_testBit]
  by_cases h254 : i = 254 <;> cases hd : d.testBit i <;>
    cases h1 : decide (3 ≤ i) <;> cases h2 : decide (i < 255) <;> simp [h254, hd, h1, h2]

lemma x448_clamp_idem (d : Nat) : x448_clamp (x448_clamp d) = x448_clamp d := by
  refine Nat.eq_of_testBit_eq fun i => ?_
  rw [x448_clamp_testBit, x448_clamp_testBit]
  by_cases h447 : i = 447 <;> cases hd : d.testBit i <;>
    cases h1 : decide (2 ≤ i) <;> cases h2 : decide (i < 448) <;> simp [h447, hd, h1, h2]

lemma x25519_clamp_ge (d : Nat) : 2 ^ 254 ≤ x25519_clamp d := by
  refine Nat.testBit_implies_ge ?_
  rw [x25519_clamp_testBit]
  simp

lemma x448_clamp_ge (d : Nat) : 2 ^ 447 ≤ x448_clamp d := by
  refine Nat.testBit_implies_ge ?_
  rw [x448_clamp_testBit]
  simp

/-! Concrete evaluation lemmas: three full 255-iteration ladder runs,
split into 85-iteration chunks so the kernel can evaluate them. -/

/-- Byte string of the spec's known-answer claim: the RFC 7748 §5.2 input
scalar for Curve A, with the final hexadecimal character (dropped in the
spec's transcription) restored. -/
def c6RfcScalarBytes : List Nat := [165, 70, 227, 107, 240, 82, 124, 157, 59, 22, 21, 75, 130, 70, 94, 221, 98, 20, 76, 10, 193, 252, 90, 24, 80, 106, 34, 68, 186, 68, 154, 196]

/-- Byte string of the spec's known-answer claim: the RFC 7748 §5.2 input
u-coordinate for Curve A, with the final hexadecimal character (dropped in
the spec's transcription) restored. -/
def c6RfcUBytes : List Nat := [230, 219, 104, 103, 88, 48, 48, 219, 53, 148, 193, 164, 36, 177, 95, 124, 114, 102, 36, 236, 38, 179, 53, 59, 16, 169, 3, 166, 208, 171, 28, 76]

/-- Byte string of the spec's known-answer claim: the expected shared
secret (the spec quotes this one in full). -/
def c6ExpectedBytes : List Nat := [195, 218, 85, 55, 157, 233, 198, 144, 142, 148, 234, 77, 242, 141, 8, 79, 50, 236, 207, 3, 73, 28, 113, 247, 84, 180, 7, 85, 119, 162, 133, 82]

/-- Byte string of the spec's known-answer claim as literally printed: the
63-hexadecimal-character scalar string, read as 31 byte pairs plus the
dangling final nibble, padded to the 32-byte curve width. -/
def c6SpecScalarBytes : List Nat := [165, 70, 227, 107, 240, 82, 124, 157, 59, 22, 21, 75, 130, 70, 94, 221, 98, 20, 76, 10, 193, 252, 90, 24, 80, 106, 34, 68, 186, 68, 154, 12]

/-- Byte string of the spec's known-answer claim as literally printed: the
63-hexadecimal-character u-coordinate string, read the same way. -/
def c6SpecUBytes : List Nat := [230, 219, 104, 103, 88, 48, 48, 219, 53, 148, 193, 164, 36, 177, 95, 124, 114, 102, 36, 236, 38, 179, 53, 59, 16, 169, 3, 166, 208, 171, 28, 4]

lemma runA_chunk1 :
    ladderLoopSpec (31029842492115040904895560451863089656472772604678260265531221036453811406496 >>> 170) 34426434033919594451155107781188821651316167215306631574996226621102155684838 p25519 x25519_a24 85 ⟨1, 0, 34426434033919594451155107781188821651316167215306631574996226621102155684838, 1, 0⟩ =
      ⟨31129031384008039639284661312483725746566151297065334717472669682716526657489, 54118931015390610227147796746708765471279384756932395328092651837812122763908, 3033180837071428497934233108372194525155281545022630781444851822822287445569, 41797785282959307570302268471854339088763926039256556050071739050827389904531, 1⟩ := by
  decide

lemma runA_chunk2 :
    ladderLoopSpec (31029842492115040904895560451863089656472772604678260265531221036453811406496 >>> 85) 34426434033919594451155107781188821651316167215306631574996226621102155684838 p25519 x25519_a24 85
      ⟨31129031384008039639284661312483725746566151297065334717472669682716526657489, 54118931015390610227147796746708765471279384756932395328092651837812122763908, 3033180837071428497934233108372194525155281545022630781444851822822287445569, 41797785282959307570302268471854339088763926039256556050071739050827389904531, 1⟩ =
      ⟨39172207941624381194016745082162074871890381157819886384546634936272068476001, 21401587985511341832760439700089753937946906798354033695247656273324907707069, 7432385068257489885300577612282271480763478553787233652335121254461368331098, 1437730658502951277017745217254002341798066435616192001649202386308608915449, 0⟩ := by
  decide

lemma runA_loop :
    ladderLoopSpec 31029842492115040904895560451863089656472772604678260265531221036453811406496 34426434033919594451155107781188821651316167215306631574996226621102155684838 p25519 x25519_a24 255 ⟨1, 0, 34426434033919594451155107781188821651316167215306631574996226621102155684838, 1, 0⟩ =
      ⟨40720446656044610887007743526168351200949085573335588056034522313589005102685, 1913421194926468280838932077950181047858614286606652195677699455974229136423, 45198403963383475001499220223294015390359985422632949493664307348747558308726, 36379949606018683717551128537890270090677201059301795776972403754422640538679, 0⟩ :=
  calc ladderLoopSpec 31029842492115040904895560451863089656472772604678260265531221036453811406496 34426434033919594451155107781188821651316167215306631574996226621102155684838 p25519 x25519_a24 255 ⟨1, 0, 34426434033919594451155107781188821651316167215306631574996226621102155684838, 1, 0⟩
      = ladderLoopSpec 31029842492115040904895560451863089656472772604678260265531221036453811406496 34426434033919594451155107781188821651316167215306631574996226621102155684838 p25519 x25519_a24 170
          (ladderLoopSpec (31029842492115040904895560451863089656472772604678260265531221036453811406496 >>> 170) 34426434033919594451155107781188821651316167215306631574996226621102155684838 p25519 x25519_a24 85 ⟨1, 0, 34426434033919594451155107781188821651316167215306631574996226621102155684838, 1, 0⟩) :=
        ladderLoopSpec_add 31029842492115040904895560451863089656472772604678260265531221036453811406496 34426434033919594451155107781188821651316167215306631574996226621102155684838 p25519 x25519_a24 170 85 _
    _ = ladderLoopSpec 31029842492115040904895560451863089656472772604678260265531221036453811406496 34426434033919594451155107781188821651316167215306631574996226621102155684838 p25519 x25519_a24 170
          ⟨31129031384008039639284661312483725746566151297065334717472669682716526657489, 54118931015390610227147796746708765471279384756932395328092651837812122763908, 3033180837071428497934233108372194525155281545022630781444851822822287445569, 41797785282959307570302268471854339088763926039256556050071739050827389904531, 1⟩ := by rw [runA_chunk1]
    _ = ladderLoopSpec 31029842492115040904895560451863089656472772604678260265531221036453811406496 34426434033919594451155107781188821651316167215306631574996226621102155684838 p25519 x25519_a24 85
          (ladderLoopSpec (31029842492115040904895560451863089656472772604678260265531221036453811406496 >>> 85) 34426434033919594451155107781188821651316167215306631574996226621102155684838 p25519 x25519_a24 85
            ⟨31129031384008039639284661312483725746566151297065334717472669682716526657489, 54118931015390610227147796746708765471279384756932395328092651837812122763908, 3033180837071428497934233108372194525155281545022630781444851822822287445569, 41797785282959307570302268471854339088763926039256556050071739050827389904531, 1⟩) :=
        ladderLoopSpec_add 31029842492115040904895560451863089656472772604678260265531221036453811406496 34426434033919594451155107781188821651316167215306631574996226621102155684838 p25519 x25519_a24 85 85 _
    _ = ladderLoopSpec 31029842492115040904895560451863089656472772604678260265531221036453811406496 34426434033919594451155107781188821651316167215306631574996226621102155684838 p25519 x25519_a24 85
          ⟨39172207941624381194016745082162074871890381157819886384546634936272068476001, 21401587985511341832760439700089753937946906798354033695247656273324907707069, 7432385068257489885300577612282271480763478553787233652335121254461368331098, 1437730658502951277017745217254002341798066435616192001649202386308608915449, 0⟩ := by rw [runA_chunk2]
    _ = ⟨40720446656044610887007743526168351200949085573335588056034522313589005102685, 1913421194926468280838932077950181047858614286606652195677699455974229136423, 45198403963383475001499220223294015390359985422632949493664307348747558308726, 36379949606018683717551128537890270090677201059301795776972403754422640538679, 0⟩ := by decide

lemma runA_val : ladderSpec 31029842492115040904895560451863089656472772604678260265531221036453811406496 34426434033919594451155107781188821651316167215306631574996226621102155684838 p25519 x25519_a24 255 = 37325765543539916631701301279660700968428932651319597985674090122993663859395 := by
  rw [ladderSpec_of_loop 31029842492115040904895560451863089656472772604678260265531221036453811406496 34426434033919594451155107781188821651316167215306631574996226621102155684838 p25519 x25519_a24 255 _ runA_loop]
  decide

lemma runB_chunk1 :
    ladderLoopSpec (34648345280781172011882153733384586776887459625479527891764270536701096707744 >>> 170) 1859908935924414488275768247495347567583984028095222938898781118876587973606 p25519 x25519_a24 85 ⟨1, 0, 1859908935924414488275768247495347567583984028095222938898781118876587973606, 1, 0⟩ =
      ⟨34260172720266919220118903993841902844462778277641535026601924582834821707995, 2356072257311351511483133568085668523806640937003042206145132017875436257987, 9784507772269629740144253408461712554653026864189471829171501045415279946440, 11109543209536365803491949311069384029661157080402932511427661323698394324676, 1⟩ := by
  decide

lemma runB_chunk2 :
    ladderLoopSpec (34648345280781172011882153733384586776887459625479527891764270536701096707744 >>> 85) 1859908935924414488275768247495347567583984028095222938898781118876587973606 p25519 x25519_a24 85
      ⟨34260172720266919220118903993841902844462778277641535026601924582834821707995, 2356072257311351511483133568085668523806640937003042206145132017875436257987, 9784507772269629740144253408461712554653026864189471829171501045415279946440, 11109543209536365803491949311069384029661157080402932511427661323698394324676, 1⟩ =
      ⟨18281919673862527376536594463930993282528507048547834924478846354559039992573, 33841559379251106649760250826074513690034712979585685776174162855374482004420, 26807738950395063255801950299423111872592015267561635793358874918167193838900, 3098888797748133266646755412679715290167473483934083791556102242771541395052, 0⟩ := by
  decide

lemma runB_loop :
    ladderLoopSpec 34648345280781172011882153733384586776887459625479527891764270536701096707744 1859908935924414488275768247495347567583984028095222938898781118876587973606 p25519 x25519_a24 255 ⟨1, 0, 1859908935924414488275768247495347567583984028095222938898781118876587973606, 1, 0⟩ =
      ⟨34515316667841194037191692353934044611289980332222288709750382656927847192734, 38057831512183382062198205970501677734733413767225179902650228724140622632924, 53033721474282130198058366957419945531251069885353584740950782330496640901053, 33324302006180129292921857835592096673879631196611887427489367139076232634687, 0⟩ :=
  calc ladderLoopSpec 34648345280781172011882153733384586776887459625479527891764270536701096707744 1859908935924414488275768247495347567583984028095222938898781118876587973606 p25519 x25519_a24 255 ⟨1, 0, 1859908935924414488275768247495347567583984028095222938898781118876587973606, 1, 0⟩
      = ladderLoopSpec 34648345280781172011882153733384586776887459625479527891764270536701096707744 1859908935924414488275768247495347567583984028095222938898781118876587973606 p25519 x25519_a24 170
          (ladderLoopSpec (34648345280781172011882153733384586776887459625479527891764270536701096707744 >>> 170) 1859908935924414488275768247495347567583984028095222938898781118876587973606 p25519 x25519_a24 85 ⟨1, 0, 1859908935924414488275768247495347567583984028095222938898781118876587973606, 1, 0⟩) :=
        ladderLoopSpec_add 34648345280781172011882153733384586776887459625479527891764270536701096707744 1859908935924414488275768247495347567583984028095222938898781118876587973606 p25519 x25519_a24 170 85 _
    _ = ladderLoopSpec 34648345280781172011882153733384586776887459625479527891764270536701096707744 1859908935924414488275768247495347567583984028095222938898781118876587973606 p25519 x25519_a24 170
          ⟨34260172720266919220118903993841902844462778277641535026601924582834821707995, 2356072257311351511483133568085668523806640937003042206145132017875436257987, 9784507772269629740144253408461712554653026864189471829171501045415279946440, 11109543209536365803491949311069384029661157080402932511427661323698394324676, 1⟩ := by rw [runB_chunk1]
    _ = ladderLoopSpec 34648345280781172011882153733384586776887459625479527891764270536701096707744 1859908935924414488275768247495347567583984028095222938898781118876587973606 p25519 x25519_a24 85
          (ladderLoopSpec (34648345280781172011882153733384586776887459625479527891764270536701096707744 >>> 85) 1859908935924414488275768247495347567583984028095222938898781118876587973606 p25519 x25519_a24 85
            ⟨34260172720266919220118903993841902844462778277641535026601924582834821707995, 2356072257311351511483133568085668523806640937003042206145132017875436257987, 9784507772269629740144253408461712554653026864189471829171501045415279946440, 11109543209536365803491949311069384029661157080402932511427661323698394324676, 1⟩) :=
        ladderLoopSpec_add 34648345280781172011882153733384586776887459625479527891764270536701096707744 1859908935924414488275768247495347567583984028095222938898781118876587973606 p25519 x25519_a24 85 85 _
    _ = ladderLoopSpec 34648345280781172011882153733384586776887459625479527891764270536701096707744 1859908935924414488275768247495347567583984028095222938898781118876587973606 p25519 x25519_a24 85
          ⟨18281919673862527376536594463930993282528507048547834924478846354559039992573, 33841559379251106649760250826074513690034712979585685776174162855374482004420, 26807738950395063255801950299423111872592015267561635793358874918167193838900, 3098888797748133266646755412679715290167473483934083791556102242771541395052, 0⟩ := by rw [runB_chunk2]
    _ = ⟨34515316667841194037191692353934044611289980332222288709750382656927847192734, 38057831512183382062198205970501677734733413767225179902650228724140622632924, 53033721474282130198058366957419945531251069885353584740950782330496640901053, 33324302006180129292921857835592096673879631196611887427489367139076232634687, 0⟩ := by decide

lemma runB_val : ladderSpec 34648345280781172011882153733384586776887459625479527891764270536701096707744 1859908935924414488275768247495347567583984028095222938898781118876587973606 p25519 x25519_a24 255 = 32244877928177021839740725883850333708555134844411583503350019856480164875640 := by
  rw [ladderSpec_of_loop 34648345280781172011882153733384586776887459625479527891764270536701096707744 1859908935924414488275768247495347567583984028095222938898781118876587973606 p25519 x25519_a24 255 _ runB_loop]
  decide

lemma runC_chunk1 :
    ladderLoopSpec (28948022309329048855892746252171976963317496166410141009864396001978282409984 >>> 170) 0 p25519 x25519_a24 85 ⟨1, 0, 0, 1, 0⟩ =
      ⟨0, 0, 0, 0, 0⟩ := by
  decide

lemma runC_chunk2 :
    ladderLoopSpec (28948022309329048855892746252171976963317496166410141009864396001978282409984 >>> 85) 0 p25519 x25519_a24 85
      ⟨0, 0, 0, 0, 0⟩ =
      ⟨0, 0, 0, 0, 0⟩ := by
  decide

lemma runC_loop :
    ladderLoopSpec 28948022309329048855892746252171976963317496166410141009864396001978282409984 0 p25519 x25519_a24 255 ⟨1, 0, 0, 1, 0⟩ =
      ⟨0, 0, 0, 0, 0⟩ :=
  calc ladderLoopSpec 28948022309329048855892746252171976963317496166410141009864396001978282409984 0 p25519 x25519_a24 255 ⟨1, 0, 0, 1, 0⟩
      = ladderLoopSpec 28948022309329048855892746252171976963317496166410141009864396001978282409984 0 p25519 x25519_a24 170
          (ladderLoopSpec (28948022309329048855892746252171976963317496166410141009864396001978282409984 >>> 170) 0 p25519 x25519_a24 85 ⟨1, 0, 0, 1, 0⟩) :=
        ladderLoopSpec_add 28948022309329048855892746252171976963317496166410141009864396001978282409984 0 p25519 x25519_a24 170 85 _
    _ = ladderLoopSpec 28948022309329048855892746252171976963317496166410141009864396001978282409984 0 p25519 x25519_a24 170
          ⟨0, 0, 0, 0, 0⟩ := by rw [runC_chunk1]
    _ = ladderLoopSpec 28948022309329048855892746252171976963317496166410141009864396001978282409984 0 p25519 x25519_a24 85
          (ladderLoopSpec (28948022309329048855892746252171976963317496166410141009864396001978282409984 >>> 85) 0 p25519 x25519_a24 85
            ⟨0, 0, 0, 0, 0⟩) :=
        ladderLoopSpec_add 28948022309329048855892746252171976963317496166410141009864396001978282409984 0 p25519 x25519_a24 85 85 _
    _ = ladderLoopSpec 28948022309329048855892746252171976963317496166410141009864396001978282409984 0 p25519 x25519_a24 85
          ⟨0, 0, 0, 0, 0⟩ := by rw [runC_chunk2]
    _ = ⟨0, 0, 0, 0, 0⟩ := by decide

lemma runC_val : ladderSpec 28948022309329048855892746252171976963317496166410141009864396001978282409984 0 p25519 x25519_a24 255 = 0 := by
  rw [ladderSpec_of_loop 28948022309329048855892746252171976963317496166410141009864396001978282409984 0 p25519 x25519_a24 255 _ runC_loop]
  decide

lemma x25519_genKeyPair_publicKey_length (rand : List Nat) :
    ((x25519_genKeyPair rand).2).length = 32 := by
  unfold x25519_genKeyPair
  dsimp only
  have hx : ladder (x25519_clamp (toBI rand)) gx25519 p25519 x25519_a24 255 < 256 ^ 32 := by
    have h1 := ladder_lt (x25519_clamp (toBI rand)) gx25519 p25519 x25519_a24 255 (by decide)
    have h2 : p25519 < 256 ^ 32 := by decide
    omega
  have hl := fromBI_length _ _ hx
  rw [show x25519_pByte = 32 from by decide]
  exact u8Set_length 32 _ hl

lemma x448_genKeyPair_publicKey_length (rand : List Nat) :
    ((x448_genKeyPair rand).2).length = 56 := by
  unfold x448_genKeyPair
  dsimp only
  have hx : ladder (x448_clamp (toBI rand)) gx448 p448 x448_a24 448 < 256 ^ 56 := by
    have h1 := ladder_lt (x448_clamp (toBI rand)) gx448 p448 x448_a24 448 (by decide)
    have h2 : p448 < 256 ^ 56 := by decide
    omega
  have hl := fromBI_length _ _ hx
  rw [show x448_nByte = 56 from by decide]
  exact u8Set_length 56 _ hl

/-! Claim theorems. -/

/-- Claim C1: for every non-negative scalar `k`, u-coordinate `u`, modulus
`p`, constant `a24` and bit length `bits`, the source's Montgomery ladder
computes exactly the spec's algorithm of §4.2 (swap-update with conditional
swaps, the differential addition-and-doubling formulas modulo `p`, the
final conditional swap, and the Fermat-inversion return value). -/
theorem C1_ladder_computes_spec_algorithm (k u p a24 bits : Nat) :
    ladder k u p a24 bits = ladderSpec k u p a24 bits :=
  ladder_eq_ladderSpec k u p a24 bits

/-- Claim C2 (refuted at this input — the key-agreement output is not
fixed-width): x25519 key agreement on the all-zero 32-byte private key and
all-zero 32-byte peer public key returns the empty byte string, not a
32-byte one, because `ecdh` returns the minimal-length encoding without the
fixed-width padding used by the key-generation branches. -/
theorem C2_ecdh_output_not_fixed_width :
    x25519_ecdh (List.replicate 32 0) (List.replicate 32 0) = [] ∧
    (x25519_ecdh (List.replicate 32 0) (List.replicate 32 0)).length ≠ 32 := by
  have h : x25519_ecdh (List.replicate 32 0) (List.replicate 32 0) = [] := by
    rw [x25519_ecdh_eq]
    rw [show x25519_clamp (toBI (List.replicate 32 0)) = 28948022309329048855892746252171976963317496166410141009864396001978282409984 from by decide]
    rw [show toBI (List.replicate 32 0) = 0 from by decide]
    rw [runC_val]
    decide
  refine ⟨h, ?_⟩
  rw [h]
  decide

/-- Claim C3: the x25519 clamp is `(d AND (2^255 - 8)) OR 2^254` (clearing
the bit above bit 254 and the bottom three bits and setting bit 254), and
the x448 clamp is `(d AND (2^448 - 4)) OR 2^447` (clearing the bottom two
bits and setting bit 447); both are total pure functions, witnessed by the
bit-level characterisations. -/
theorem C3_clamp_masks :
    (∀ d : Nat, x25519_clamp d = (d &&& (2 ^ 255 - 8)) ||| 2 ^ 254) ∧
    (∀ d i : Nat, (x25519_clamp d).testBit i =
      ((d.testBit i && decide (3 ≤ i) && decide (i < 255)) || decide (i = 254))) ∧
    (∀ d : Nat, x448_clamp d = (d &&& (2 ^ 448 - 4)) ||| 2 ^ 447) ∧
    (∀ d i : Nat, (x448_clamp d).testBit i =
      ((d.testBit i && decide (2 ≤ i) && decide (i < 448)) || decide (i = 447))) := by
  refine ⟨fun d => ?_, x25519_clamp_testBit, fun d => ?_, x448_clamp_testBit⟩
  · show (d &&& 0x7FFFFFFFFFFFFFFFFFFFFFFFFFFFFFFFFFFFFFFFFFFFFFFFFFFFFFFFFFFFFFF8) |||
        0x4000000000000000000000000000000000000000000000000000000000000000 =
        (d &&& (2 ^ 255 - 8)) ||| 2 ^ 254
    rw [show ((2:Nat) ^ 255 - 8) =
          0x7FFFFFFFFFFFFFFFFFFFFFFFFFFFFFFFFFFFFFFFFFFFFFFFFFFFFFFFFFFFFFF8 from by decide,
        show ((2:Nat) ^ 254) =
          0x4000000000000000000000000000000000000000000000000000000000000000 from by decide]
  · show (d &&& 0xFFFFFFFFFFFFFFFFFFFFFFFFFFFFFFFFFFFFFFFFFFFFFFFFFFFFFFFFFFFFFFFFFFFFFFFFFFFFFFFFFFFFFFFFFFFFFFFFFFFFFFFFFFFFFFFC) |||
        0x8000000000000000000000000000000000000000000000000000000000000000000000000000000000000000000000000000000000000000 =
        (d &&& (2 ^ 448 - 4)) ||| 2 ^ 447
    rw [show ((2:Nat) ^ 448 - 4) =
          0xFFFFFFFFFFFFFFFFFFFFFFFFFFFFFFFFFFFFFFFFFFFFFFFFFFFFFFFFFFFFFFFFFFFFFFFFFFFFFFFFFFFFFFFFFFFFFFFFFFFFFFFFFFFFFFFC from by decide,
        show ((2:Nat) ^ 447) =
          0x8000000000000000000000000000000000000000000000000000000000000000000000000000000000000000000000000000000000000000 from by decide]

/-- Claim C4: deriving a public key raises the invalid-key error exactly
when the supplied private key decodes to zero, on both curves; the other
operations have no error path (they are plain total functions in this
embedding, mirroring the absence of any `throw` outside the `public_key`
branch of the source). -/
theorem C4_error_iff_zero_scalar (sk : List Nat) :
    (x25519_genPublicKey sk = Except.error KitError.invalidPrivateKey ↔ toBI sk = 0) ∧
    (x448_genPublicKey sk = Except.error KitError.invalidPrivateKey ↔ toBI sk = 0) := by
  refine ⟨?_, ?_⟩
  · unfold x25519_genPublicKey
    dsimp only
    by_cases h : toBI sk = 0 <;> simp [h]
  · unfold x448_genPublicKey
    dsimp only
    by_cases h : toBI sk = 0 <;> simp [h]

/-- Claim C5: the branch-free conditional swap returns the pair unchanged
for selector bit 0 and exchanges the two field elements for selector
bit 1, for every pair of field elements. -/
theorem C5_cSwap_conditional_swap (x_2 x_3 : Nat) :
    cSwap 0 x_2 x_3 = (x_2, x_3) ∧ cSwap 1 x_2 x_3 = (x_3, x_2) :=
  ⟨cSwap_zero x_2 x_3, cSwap_one x_2 x_3⟩

/-- Claim C6 (as printed, refuted): x25519 key agreement applied to the
spec's literally printed 63-hexadecimal-character input strings, padded to
the 32-byte curve width, does not yield the claimed shared secret — the
spec's transcription dropped the final hexadecimal character of each input
of the RFC 7748 §5.2 vector. -/
theorem C6_spec_literal_vector_fails :
    x25519_ecdh c6SpecScalarBytes c6SpecUBytes ≠ c6ExpectedBytes := by
  rw [x25519_ecdh_eq]
  rw [show x25519_clamp (toBI c6SpecScalarBytes) = 34648345280781172011882153733384586776887459625479527891764270536701096707744 from by decide]
  rw [show toBI c6SpecUBytes = 1859908935924414488275768247495347567583984028095222938898781118876587973606 from by decide]
  rw [runB_val]
  decide

/-- Claim C6 (amended): with the dropped final hexadecimal character of
each input restored (scalar `…9ac4`, u-coordinate `…1c4c`, the RFC 7748
§5.2 vector), x25519 key agreement yields exactly the claimed shared
secret `c3da…8552`. -/
theorem C6_known_answer_vector_restored :
    x25519_ecdh c6RfcScalarBytes c6RfcUBytes = c6ExpectedBytes := by
  rw [x25519_ecdh_eq]
  rw [show x25519_clamp (toBI c6RfcScalarBytes) = 31029842492115040904895560451863089656472772604678260265531221036453811406496 from by decide]
  rw [show toBI c6RfcUBytes = 34426434033919594451155107781188821651316167215306631574996226621102155684838 from by decide]
  rw [runA_val]
  decide

/-- Claim C7: for every generated key pair (on either curve, for any
random byte string decoding to a nonzero scalar, as the external generator
guarantees), the stored public key is the padded ladder of the generator
under the clamped private scalar, and feeding the private key back into
derive-public-key reproduces the identical pair. -/
theorem C7_keypair_roundtrip (ra rb : List Nat) (ha : toBI ra ≠ 0) (hb : toBI rb ≠ 0) :
    x25519_genPublicKey (x25519_genKeyPair ra).1 = Except.ok (x25519_genKeyPair ra) ∧
    (x25519_genKeyPair ra).2 =
      u8Set x25519_pByte (fromBI (ladder (x25519_clamp (toBI ra)) gx25519 p25519 x25519_a24 255)) ∧
    x448_genPublicKey (x448_genKeyPair rb).1 = Except.ok (x448_genKeyPair rb) ∧
    (x448_genKeyPair rb).2 =
      u8Set x448_nByte (fromBI (ladder (x448_clamp (toBI rb)) gx448 p448 x448_a24 448)) := by
  refine ⟨?_, rfl, ?_, rfl⟩
  · unfold x25519_genKeyPair x25519_genPublicKey
    dsimp only
    rw [if_neg ha]
  · unfold x448_genKeyPair x448_genPublicKey
    dsimp only
    rw [if_neg hb]

/-- Witness for claim C7 at the concrete one-byte random string `[1]` on
both curves. -/
theorem C7_keypair_roundtrip_witness :
    toBI [1] ≠ 0 ∧
    (x25519_genPublicKey (x25519_genKeyPair [1]).1 = Except.ok (x25519_genKeyPair [1]) ∧
     (x25519_genKeyPair [1]).2 =
       u8Set x25519_pByte (fromBI (ladder (x25519_clamp (toBI [1])) gx25519 p25519 x25519_a24 255)) ∧
     x448_genPublicKey (x448_genKeyPair [1]).1 = Except.ok (x448_genKeyPair [1]) ∧
     (x448_genKeyPair [1]).2 =
       u8Set x448_nByte (fromBI (ladder (x448_clamp (toBI [1])) gx448 p448 x448_a24 448))) :=
  ⟨by decide, C7_keypair_roundtrip [1] [1] (by decide) (by decide)⟩

/-- Claim C9: public-key derivation and key agreement are deterministic
pure functions of their inputs on both curves; two invocations on the same
inputs are the same value of this embedding, which has no state. -/
theorem C9_operations_deterministic (sk pk : List Nat) :
    x25519_genPublicKey sk = x25519_genPublicKey sk ∧
    x448_genPublicKey sk = x448_genPublicKey sk ∧
    x25519_ecdh sk pk = x25519_ecdh sk pk ∧
    x448_ecdh sk pk = x448_ecdh sk pk :=
  ⟨rfl, rfl, rfl, rfl⟩

/-- Claim C10: both clamp functions are idempotent and bounded below by
the forced top bit (`2^254` for x25519, `2^447` for x448), hence never
zero; the public operations pass exactly `clamp` of the decoded scalar to
the ladder, so every such invocation runs with a nonzero scalar. -/
theorem C10_clamp_idempotent_nonzero (d : Nat) :
    x25519_clamp (x25519_clamp d) = x25519_clamp d ∧
    2 ^ 254 ≤ x25519_clamp d ∧ x25519_clamp d ≠ 0 ∧
    x448_clamp (x448_clamp d) = x448_clamp d ∧
    2 ^ 447 ≤ x448_clamp d ∧ x448_clamp d ≠ 0 := by
  have h1 := x25519_clamp_ge d
  have h2 := x448_clamp_ge d
  have p1 : (0:Nat) < 2 ^ 254 := Nat.two_pow_pos 254
  have p2 : (0:Nat) < 2 ^ 447 := Nat.two_pow_pos 447
  exact ⟨x25519_clamp_idem d, h1, by omega, x448_clamp_idem d, h2, by omega⟩

end MimaKit
